import Mathlib

/-!
Shallow embedding of `interactive_lightcurves.py`.

The script glues a reference CSV table, the external `lightkurve` analysis
library and `matplotlib` rendering together.  The external collaborators
(search/download, aperture photometry, flattening, NaN/outlier removal,
folding, binning, Lomb-Scargle) are modelled as fields of an `Env`
structure, since the spec declares them opaque collaborators; the glue code
(module-level table loading, `generate_plots`) is embedded faithfully.

Numbers are modelled as `ℚ` (a possibly-NaN flux value is `Option ℚ`),
Python exceptions as an explicit `Except` result.
-/

/-- A row of the reference table `lurie_ebs.csv`: the `KIC` identifier column
and the `Porb` literature orbital-period column. -/
structure Row where
  KIC : Int
  Porb : ℚ
  deriving DecidableEq, Repr

/-- The Python exceptions that the script can raise or catch. -/
inductive PyError where
  | valueError : String → PyError
  | indexError : String → PyError
  | attributeError : String → PyError
  deriving DecidableEq, Repr

/-- Digit-string core of Python `int(str)`: a nonempty run of ASCII digits in
which single underscores may appear between digits (CPython grammar). -/
def pyDigitsAux : List Char → Nat → Bool → Option Nat
  | [], acc, prevDigit => if prevDigit then some acc else none
  | c :: cs, acc, prevDigit =>
      if c.isDigit then pyDigitsAux cs (acc * 10 + (c.toNat - 48)) true
      else if c == '_' && prevDigit then pyDigitsAux cs acc false
      else none

/-- Leading/trailing whitespace strip, as Python `int()` performs on its
string argument. -/
def stripWs (cs : List Char) : List Char :=
  ((cs.dropWhile Char.isWhitespace).reverse.dropWhile Char.isWhitespace).reverse

/-- Python `int(s)` on a string: `some n` on success, `none` when the call
raises `ValueError`. -/
def pyInt? (s : String) : Option Int :=
  match stripWs s.toList with
  | '+' :: rest => (pyDigitsAux rest 0 false).map (fun n => (n : Int))
  | '-' :: rest => (pyDigitsAux rest 0 false).map (fun n => -(n : Int))
  | cs => (pyDigitsAux cs 0 false).map (fun n => (n : Int))

/-- Embeds `data_short = data[data['Porb'] < 10]` : the filtered table. -/
def data_short (data : List Row) : List Row :=
  data.filter (fun r => r.Porb < 10)

/-- Embeds `data_short['KIC'].tolist()` : the identifier column of the filtered
table, in row order. -/
def kic_list_ints (data : List Row) : List Int :=
  (data_short data).map Row.KIC

/-- Embeds `kic_list = list(map(str, kic_list))` : the same identifiers as
strings, fed to the Combobox. -/
def kic_list (data : List Row) : List String :=
  (kic_list_ints data).map toString

/-- Embeds `data[data['KIC'] == int(KIC)]['Porb'].values[0]` for an already-parsed
identifier: the `Porb` of the first row of the *unfiltered* table whose `KIC`
matches, or the `IndexError` that `.values[0]` raises on an empty selection. -/
def p_orb_lookup (data : List Row) (kicInt : Int) : Except PyError ℚ :=
  match ((data.filter (fun r => r.KIC == kicInt)).map Row.Porb).head? with
  | some p => Except.ok p
  | none => Except.error (PyError.indexError "index 0 is out of bounds for axis 0 with size 0")

/-- Opaque handle for a downloaded target pixel file. -/
abbrev TPF := Nat

/-- Opaque handle for an aperture mask. -/
abbrev Mask := Nat

/-- A lightcurve: (time, flux) samples, `none` flux modelling NaN. -/
abbrev LC := List (ℚ × Option ℚ)

/-- A phase-folded lightcurve: (phase, flux) samples. -/
abbrev FoldedLC := List (ℚ × Option ℚ)

/-- A periodogram: (period, power) samples. -/
abbrev Pgram := List (ℚ × ℚ)

/-- The external collaborators used by `generate_plots`, one field per
library call made by the script. -/
structure Env where
  /-- Model of `search_targetpixelfile(q, author="Kepler", cadence="long").download()`;
  `none` models the `None` returned when the search finds no observation. -/
  searchDownload : String → Option TPF
  /-- Model of `tpf.pipeline_mask`. -/
  pipelineMask : TPF → Mask
  /-- Model of `tpf.to_lightcurve(aperture_mask=...)`. -/
  toLightcurve : TPF → Mask → LC
  /-- Model of `.flatten(window_length=w)`. -/
  flatten : Nat → LC → LC
  /-- Model of `.remove_nans()`. -/
  removeNans : LC → LC
  /-- Model of `.remove_outliers()`. -/
  removeOutliers : LC → LC
  /-- Model of `.fold(period=p*u.day)`. -/
  fold : ℚ → LC → FoldedLC
  /-- Model of `.bin(time_bin_size=b)`. -/
  binFold : ℚ → FoldedLC → FoldedLC
  /-- Model of `LombScarglePeriodogram.from_lightcurve(lc)`. -/
  lombScargle : LC → Pgram

/-- Embeds `periodogram.period_at_max_power`: the period of the first sample of
maximal power. -/
def period_at_max_power (pg : Pgram) : ℚ :=
  match pg with
  | [] => 0
  | x :: xs => (xs.foldl (fun best cur => if best.2 < cur.2 then cur else best) x).1

/-- Zero-pad a numeral below 1000 to three digits. -/
def pad3 (n : Nat) : String :=
  if n < 10 then "00" ++ toString n
  else if n < 100 then "0" ++ toString n
  else toString n

/-- Fixed three-decimal rendering of a rational, modelling the `:.3f`
format applied to the detected period: the numerator of `q * 1000` rounded
to the nearest integer (halves up), written with a decimal point. -/
def fmt3 (q : ℚ) : String :=
  let n : Int := Int.fdiv (2 * (q.num * 1000) + (q.den : Int)) (2 * (q.den : Int))
  let sign := if n < 0 then "-" else ""
  let m := n.natAbs
  sign ++ toString (m / 1000) ++ "." ++ pad3 (m % 1000)

/-- Plain rendering of a rational, modelling the `str()` applied to the
literature period in the annotation's last line. -/
def ratStr (q : ℚ) : String :=
  if q.den = 1 then toString q.num else toString q.num ++ "/" ++ toString q.den

/-- One panel of the matplotlib figure: everything drawn onto one axes
object by the script. -/
structure Panel where
  /-- Records lightcurve `.scatter(ax=...)` calls. -/
  scatters : List LC
  /-- Records folded-lightcurve `.scatter(ax=...)` calls. -/
  foldScatters : List FoldedLC
  /-- Records folded-lightcurve `.plot(ax=...)` calls (the binned overlay line). -/
  foldLines : List FoldedLC
  /-- Records periodogram `.plot` calls, with their `view` and `scale` options. -/
  pgramPlots : List (Pgram × String × String)
  /-- Records `AnchoredText` boxes, each a list of text lines. -/
  annotations : List (List String)
  /-- Records `axvline` positions. -/
  vlines : List ℚ
  deriving DecidableEq, Repr

/-- A fresh, empty axes object. -/
def emptyPanel : Panel :=
  { scatters := [], foldScatters := [], foldLines := [], pgramPlots := []
    annotations := [], vlines := [] }

/-- The figure: `plt.subplots(ncols=2, nrows=2)` and its four panels. -/
structure Figure where
  nrows : Nat
  ncols : Nat
  p00 : Panel
  p01 : Panel
  p10 : Panel
  p11 : Panel
  deriving DecidableEq, Repr

/-- The figure produced by the `except AttributeError` handler: the 2x2
grid with nothing drawn on any panel. -/
def emptyFigure : Figure :=
  { nrows := 2, ncols := 2
    p00 := emptyPanel, p01 := emptyPanel, p10 := emptyPanel, p11 := emptyPanel }

/-- Embeds `lc = tpf.to_lightcurve(aperture_mask=tpf.pipeline_mask).flatten(window_length=401)`. -/
def lcRun (env : Env) (tpf : TPF) : LC :=
  env.flatten 401 (env.toLightcurve tpf (env.pipelineMask tpf))

/-- Embeds `lc.remove_nans().remove_outliers()` : the clean (unfolded) series. -/
def cleanRun (env : Env) (lc : LC) : LC :=
  env.removeOutliers (env.removeNans lc)

/-- Embeds `lc.remove_nans().remove_outliers().fold(period=period*u.day)`. -/
def foldedRun (env : Env) (period : ℚ) (lc : LC) : FoldedLC :=
  env.fold period (cleanRun env lc)

/-- The three text lines of the `AnchoredText` box on panel [1,1]. -/
def annotationLines (pmax p_orb : ℚ) : List String :=
  ["Period at max power: " ++ fmt3 pmax,
   "2 x Period at max power: " ++ fmt3 (pmax * 2),
   "Period from literature: " ++ ratStr p_orb ++ " d"]

/-- Embeds `generate_plots(KIC, period, bin_size)`: formats the query string, looks
up `Porb` in the unfiltered table (raising `ValueError` on an unparseable
identifier and `IndexError` on an absent one), then runs the try-block:
a `None` download makes `tpf.to_lightcurve` raise `AttributeError`, which the
handler turns into an empty 2x2 figure; otherwise the four panels are
populated exactly as in lines 55-67 of the script. -/
def generate_plots (env : Env) (data : List Row) (KIC : String)
    (period bin_size : ℚ) : Except PyError Figure :=
  let KIC_ID := "KIC " ++ KIC
  match pyInt? KIC with
  | none =>
      Except.error (PyError.valueError ("invalid literal for int() with base 10: " ++ KIC))
  | some kicInt =>
    match p_orb_lookup data kicInt with
    | Except.error e => Except.error e
    | Except.ok p_orb =>
      match env.searchDownload KIC_ID with
      | none => Except.ok emptyFigure
      | some tpf =>
          let lc := lcRun env tpf
          let folded_lc := foldedRun env period lc
          let periodogram := env.lombScargle lc
          let pmax := period_at_max_power periodogram
          Except.ok
            { nrows := 2, ncols := 2
              p00 := { emptyPanel with scatters := [lc] }
              p01 := { emptyPanel with
                        foldLines := [env.binFold bin_size folded_lc]
                        foldScatters := [folded_lc] }
              p10 := { emptyPanel with pgramPlots := [(periodogram, "frequency", "linear")] }
              p11 := { emptyPanel with
                        pgramPlots := [(periodogram, "period", "log")]
                        annotations := [annotationLines pmax p_orb]
                        vlines := [pmax, pmax * 2] } }

/-- The periodogram drawn on panel [1,0] of a figure, if exactly one was drawn. -/
def figPgram (f : Figure) : Option Pgram :=
  match f.p10.pgramPlots with
  | [(pg, _, _)] => some pg
  | _ => none

/-- Whether any panel of a figure carries an `AnchoredText` box. -/
def figHasNote (f : Figure) : Bool :=
  !(f.p00.annotations.isEmpty && f.p01.annotations.isEmpty
    && f.p10.annotations.isEmpty && f.p11.annotations.isEmpty)

/-- A concrete collaborator environment whose data source holds no
observation for any query: every search/download yields `None`. -/
def envDemo : Env :=
  { searchDownload := fun _ => none
    pipelineMask := fun _ => 0
    toLightcurve := fun _ _ => []
    flatten := fun _ lc => lc
    removeNans := fun lc => lc.filter (fun s => s.2.isSome)
    removeOutliers := fun lc => lc
    fold := fun _ lc => lc
    binFold := fun _ f => f
    lombScargle := fun lc => lc.map (fun s => (s.1, s.2.getD 0)) }

/-- A concrete collaborator environment whose data source finds every query
and yields a three-sample lightcurve containing one NaN flux. -/
def envFound : Env :=
  { searchDownload := fun _ => some 0
    pipelineMask := fun _ => 0
    toLightcurve := fun _ _ => [(0, some 1), (1, none), (2, some 3)]
    flatten := fun _ lc => lc
    removeNans := fun lc => lc.filter (fun s => s.2.isSome)
    removeOutliers := fun lc => lc
    fold := fun _ lc => lc
    binFold := fun _ f => f
    lombScargle := fun lc => lc.map (fun s => (s.1, s.2.getD 0)) }

/-- A concrete reference table in which identifier 8758161 appears twice
with different periods. -/
def dupTable : List Row :=
  [⟨8758161, Rat.mk' 7 2 (by decide) (by decide)⟩, ⟨8758161, 9⟩, ⟨42, 1⟩]

/-- A concrete reference table whose identifier 77 has a literature period
of at least 10 days. -/
def tableC10 : List Row := [⟨77, 12⟩, ⟨8758161, Rat.mk' 7 2 (by decide) (by decide)⟩]

theorem head?_filter_eq_find? {α : Type} (p : α → Bool) (l : List α) :
    (l.filter p).head? = l.find? p := by
  induction l with
  | nil => rfl
  | cons a t ih =>
    rw [List.filter_cons, List.find?_cons]
    cases hpa : p a with
    | true => simp
    | false => simp [ih]

theorem lookup_of_find? (data : List Row) (n : Int) (r : Row)
    (h : data.find? (fun row => row.KIC == n) = some r) :
    p_orb_lookup data n = Except.ok r.Porb := by
  unfold p_orb_lookup
  rw [List.head?_map, head?_filter_eq_find?, h]
  rfl

theorem lookup_of_find?_none (data : List Row) (n : Int)
    (h : data.find? (fun row => row.KIC == n) = none) :
    p_orb_lookup data n =
      Except.error (PyError.indexError "index 0 is out of bounds for axis 0 with size 0") := by
  unfold p_orb_lookup
  rw [List.head?_map, head?_filter_eq_find?, h]
  rfl

/-- C1 (amended): when the identifier has a matching row in the reference
table, the lookup at the start of `generate_plots` returns the `Porb` of a
matching row; when no row matches, the lookup does not return an absent
marker but raises `IndexError` (so the run errors out). -/
theorem c1_lookup_present_or_raise (data : List Row) (n : Int) :
    ((data.find? (fun row => row.KIC == n)).isSome →
      ∃ r ∈ data, r.KIC = n ∧ p_orb_lookup data n = Except.ok r.Porb)
    ∧ (data.find? (fun row => row.KIC == n) = none →
      p_orb_lookup data n =
        Except.error (PyError.indexError "index 0 is out of bounds for axis 0 with size 0")) := by
  constructor
  · intro h
    obtain ⟨r, hr⟩ := Option.isSome_iff_exists.mp h
    refine ⟨r, List.mem_of_find?_eq_some hr, ?_, lookup_of_find? data n r hr⟩
    simpa using List.find?_some hr
  · intro h
    exact lookup_of_find?_none data n h

/-- C1 witness: in `dupTable`, identifier 8758161 is present and resolves to
a matching row's period; identifier 5 has no matching row and the lookup
raises `IndexError`. -/
theorem c1_witness :
    ((dupTable.find? (fun row => row.KIC == (8758161 : Int))).isSome
      ∧ ∃ r ∈ dupTable, r.KIC = 8758161 ∧ p_orb_lookup dupTable 8758161 = Except.ok r.Porb)
    ∧ (dupTable.find? (fun row => row.KIC == (5 : Int)) = none
      ∧ p_orb_lookup dupTable 5 =
          Except.error (PyError.indexError "index 0 is out of bounds for axis 0 with size 0")) :=
  ⟨⟨by decide, (c1_lookup_present_or_raise dupTable 8758161).1 (by decide)⟩,
   ⟨by decide, (c1_lookup_present_or_raise dupTable 5).2 (by decide)⟩⟩

/-- C1 counterexample: identifier 999999999 is absent from `dupTable`; the
literature lookup raises `IndexError`, and so does the whole run, instead of
returning an absent marker and proceeding. -/
theorem c1_counterexample :
    p_orb_lookup dupTable 999999999 =
      Except.error (PyError.indexError "index 0 is out of bounds for axis 0 with size 0")
    ∧ generate_plots envDemo dupTable "999999999" 5 (1/50) =
      Except.error (PyError.indexError "index 0 is out of bounds for axis 0 with size 0") :=
  ⟨by rfl, by rfl⟩

/-- C8: for any identifier string that Python `int()` rejects,
`generate_plots` fails with an uncaught `ValueError` during the literature
lookup; the result is the same for every collaborator environment, so no
observation fetch is ever attempted. -/
theorem c8_unparseable_raises (env : Env) (data : List Row) (KIC : String)
    (period bin_size : ℚ) (h : pyInt? KIC = none) :
    generate_plots env data KIC period bin_size =
      Except.error (PyError.valueError ("invalid literal for int() with base 10: " ++ KIC)) := by
  simp only [generate_plots, h]

/-- C8 witness: the identifier "abc" is not parseable as an integer and the
run fails with `ValueError` in the demo environment. -/
theorem c8_witness :
    pyInt? "abc" = none
    ∧ generate_plots envDemo dupTable "abc" 5 (1/50) =
        Except.error (PyError.valueError ("invalid literal for int() with base 10: " ++ "abc")) :=
  ⟨by decide, c8_unparseable_raises envDemo dupTable "abc" 5 (1/50) (by decide)⟩

/-- C9: when several reference-table rows share an identifier, the literature
lookup deterministically returns the period of the first matching row in
table order (the row `List.find?` locates). -/
theorem c9_first_match (data : List Row) (n : Int) (r : Row)
    (h : data.find? (fun row => row.KIC == n) = some r) :
    p_orb_lookup data n = Except.ok r.Porb :=
  lookup_of_find? data n r h

/-- C9 witness: `dupTable` holds identifier 8758161 twice, with periods 7/2
and 9; the lookup returns 7/2, the period of the first matching row. -/
theorem c9_witness :
    dupTable.find? (fun row => row.KIC == (8758161 : Int))
      = some ⟨8758161, Rat.mk' 7 2 (by decide) (by decide)⟩
    ∧ p_orb_lookup dupTable 8758161 = Except.ok (Rat.mk' 7 2 (by decide) (by decide)) :=
  ⟨by decide,
   c9_first_match dupTable 8758161 ⟨8758161, Rat.mk' 7 2 (by decide) (by decide)⟩ (by decide)⟩

/-- C2: for any valid (positive) trial period and bin size, a run whose
identifier is in the reference table but whose query string matches no
observation in the data source takes the `AttributeError` handler (the
in-code not-found signal) and returns the placeholder figure; no exception
reaches the caller. -/
theorem c2_absent_target_no_raise (env : Env) (data : List Row) (KIC : String) (n : Int)
    (r : Row) (period bin_size : ℚ) (_hp : 0 < period) (_hb : 0 < bin_size)
    (hparse : pyInt? KIC = some n)
    (hfind : data.find? (fun row => row.KIC == n) = some r)
    (habsent : env.searchDownload ("KIC " ++ KIC) = none) :
    generate_plots env data KIC period bin_size = Except.ok emptyFigure := by
  simp only [generate_plots, hparse, lookup_of_find? data n r hfind, habsent]

/-- C2 witness: in the demo environment, whose data source matches nothing,
the run for table identifier 8758161 with period 5 and bin size 1 returns
the placeholder figure. -/
theorem c2_witness :
    (0 : ℚ) < 5 ∧ (0 : ℚ) < 1
    ∧ pyInt? "8758161" = some 8758161
    ∧ dupTable.find? (fun row => row.KIC == (8758161 : Int))
        = some ⟨8758161, Rat.mk' 7 2 (by decide) (by decide)⟩
    ∧ envDemo.searchDownload ("KIC " ++ "8758161") = none
    ∧ generate_plots envDemo dupTable "8758161" 5 1 = Except.ok emptyFigure :=
  ⟨by decide, by decide, by decide, by decide, rfl,
   c2_absent_target_no_raise envDemo dupTable "8758161" 8758161
     ⟨8758161, Rat.mk' 7 2 (by decide) (by decide)⟩ 5 1
     (by decide) (by decide) (by decide) (by decide) rfl⟩

/-- C4 (amended): on a not-found run the handler always renders the same
2x2 grid with all four panels empty and never throws, but the figure carries
no annotation at all: the "target not found" placeholder text of the claim
is absent. -/
theorem c4_notfound_render (env : Env) (data : List Row) (KIC : String) (n : Int)
    (r : Row) (period bin_size : ℚ)
    (hparse : pyInt? KIC = some n)
    (hfind : data.find? (fun row => row.KIC == n) = some r)
    (habsent : env.searchDownload ("KIC " ++ KIC) = none) :
    ∃ f : Figure, generate_plots env data KIC period bin_size = Except.ok f
      ∧ f.nrows = 2 ∧ f.ncols = 2
      ∧ f.p00 = emptyPanel ∧ f.p01 = emptyPanel ∧ f.p10 = emptyPanel ∧ f.p11 = emptyPanel
      ∧ figHasNote f = false := by
  refine ⟨emptyFigure, ?_, rfl, rfl, rfl, rfl, rfl, rfl, rfl⟩
  simp only [generate_plots, hparse, lookup_of_find? data n r hfind, habsent]

/-- C4 witness: the not-found render for identifier 8758161 in the demo
environment is the empty 2x2 grid without any annotation. -/
theorem c4_witness :
    pyInt? "8758161" = some 8758161
    ∧ dupTable.find? (fun row => row.KIC == (8758161 : Int))
        = some ⟨8758161, Rat.mk' 7 2 (by decide) (by decide)⟩
    ∧ envDemo.searchDownload ("KIC " ++ "8758161") = none
    ∧ ∃ f : Figure, generate_plots envDemo dupTable "8758161" 5 1 = Except.ok f
        ∧ f.nrows = 2 ∧ f.ncols = 2
        ∧ f.p00 = emptyPanel ∧ f.p01 = emptyPanel ∧ f.p10 = emptyPanel ∧ f.p11 = emptyPanel
        ∧ figHasNote f = false :=
  ⟨by decide, by decide, rfl,
   c4_notfound_render envDemo dupTable "8758161" 8758161
     ⟨8758161, Rat.mk' 7 2 (by decide) (by decide)⟩ 5 1
     (by decide) (by decide) rfl⟩

/-- C4 counterexample: a concrete not-found run returns the empty figure,
which carries no annotation box on any panel, so no "target not found"
placeholder is visible. -/
theorem c4_counterexample :
    generate_plots envDemo dupTable "8758161" 5 1 = Except.ok emptyFigure
    ∧ figHasNote emptyFigure = false :=
  ⟨by rfl, by rfl⟩

/-- C3 (amended): the periodogram drawn (and from which the period at max
power is read) is computed from `lc`, the detrended series before
`remove_nans`/`remove_outliers`; the cleaning is applied only on the branch
that is folded. -/
theorem c3_periodogram_uncleaned (env : Env) (data : List Row) (KIC : String) (n : Int)
    (r : Row) (tpf : TPF) (period bin_size : ℚ)
    (hparse : pyInt? KIC = some n)
    (hfind : data.find? (fun row => row.KIC == n) = some r)
    (hdl : env.searchDownload ("KIC " ++ KIC) = some tpf) :
    (generate_plots env data KIC period bin_size).toOption.bind figPgram
      = some (env.lombScargle (lcRun env tpf)) := by
  simp only [generate_plots, hparse, lookup_of_find? data n r hfind, hdl]
  rfl

/-- C3 witness: in the found-environment run the drawn periodogram is the
Lomb-Scargle of the uncleaned detrended series. -/
theorem c3_witness :
    pyInt? "8758161" = some 8758161
    ∧ dupTable.find? (fun row => row.KIC == (8758161 : Int))
        = some ⟨8758161, Rat.mk' 7 2 (by decide) (by decide)⟩
    ∧ envFound.searchDownload ("KIC " ++ "8758161") = some 0
    ∧ (generate_plots envFound dupTable "8758161" 5 1).toOption.bind figPgram
        = some (envFound.lombScargle (lcRun envFound 0)) :=
  ⟨by decide, by decide, rfl,
   c3_periodogram_uncleaned envFound dupTable "8758161" 8758161
     ⟨8758161, Rat.mk' 7 2 (by decide) (by decide)⟩ 0 5 1
     (by decide) (by decide) rfl⟩

/-- C3 counterexample: in the found environment the series contains a NaN
sample, the clean series differs from the uncleaned one, and the periodogram
the run draws is the one of the uncleaned series, which differs from the
periodogram of the clean series; so the claim that the periodogram is
computed over the clean series is false. -/
theorem c3_counterexample :
    (generate_plots envFound dupTable "8758161" 5 1).toOption.bind figPgram
      = some (envFound.lombScargle (lcRun envFound 0))
    ∧ cleanRun envFound (lcRun envFound 0) ≠ lcRun envFound 0
    ∧ envFound.lombScargle (lcRun envFound 0)
      ≠ envFound.lombScargle (cleanRun envFound (lcRun envFound 0)) :=
  ⟨by rfl, by decide, by decide⟩

/-- C5: two runs that differ only in `bin_size` return results that agree on
everything except possibly the folded-series panel [0,1]: same outcome, same
panels [0,0], [1,0], [1,1], hence the same drawn periodogram and the same
period at max power. -/
theorem c5_bin_size_independent (env : Env) (data : List Row) (KIC : String)
    (period b1 b2 : ℚ) :
    (generate_plots env data KIC period b1).map (fun f => (f.p00, f.p10, f.p11))
      = (generate_plots env data KIC period b2).map (fun f => (f.p00, f.p10, f.p11))
    ∧ ((generate_plots env data KIC period b1).toOption.bind figPgram).map period_at_max_power
      = ((generate_plots env data KIC period b2).toOption.bind figPgram).map
          period_at_max_power := by
  rcases hpi : pyInt? KIC with _ | n
  · simp [generate_plots, hpi]
  · rcases hlk : p_orb_lookup data n with e | p
    · simp [generate_plots, hpi, hlk]
    · rcases hdl : env.searchDownload ("KIC " ++ KIC) with _ | tpf
      · simp [generate_plots, hpi, hlk, hdl]
      · simp [generate_plots, hpi, hlk, hdl, Except.map, Except.toOption, Option.bind, figPgram]

theorem count_filter_eq (p : Row → Bool) (l : List Row) (r : Row) :
    (l.filter p).count r = if p r = true then l.count r else 0 := by
  by_cases h : p r = true
  · rw [if_pos h, List.count_filter h]
  · rw [if_neg h, List.count_eq_zero]
    intro hmem
    exact h (List.mem_filter.mp hmem).2

/-- C6: the loader keeps exactly the rows with `Porb < 10` (each with its
original multiplicity, so duplicates survive), in the original row order
(the filtered table is a sublist of the source); and the selectable list is
exactly the string form of each kept row's identifier, in that order. -/
theorem c6_loader (data : List Row) :
    (∀ r : Row, (data_short data).count r = if r.Porb < 10 then data.count r else 0)
    ∧ (data_short data).Sublist data
    ∧ kic_list data = (data.filter (fun r => r.Porb < 10)).map (fun r => toString r.KIC) := by
  refine ⟨fun r => ?_, List.filter_sublist data, ?_⟩
  · have h := count_filter_eq (fun r => decide (r.Porb < 10)) data r
    simpa [data_short] using h
  · simp [kic_list, kic_list_ints, data_short, List.map_map]

/-- C7: on a successful run the annotation box on panel [1,1] holds exactly
three lines - the detected period at max power rendered at three decimals,
twice that period rendered the same way, and the literature period - and the
same panel carries exactly two vertical lines, at the detected period and at
twice the detected period. -/
theorem c7_annotation_lines (env : Env) (data : List Row) (KIC : String) (n : Int)
    (r : Row) (tpf : TPF) (period bin_size : ℚ)
    (hparse : pyInt? KIC = some n)
    (hfind : data.find? (fun row => row.KIC == n) = some r)
    (hdl : env.searchDownload ("KIC " ++ KIC) = some tpf) :
    ∃ f : Figure, generate_plots env data KIC period bin_size = Except.ok f
      ∧ f.p11.annotations =
          [["Period at max power: "
              ++ fmt3 (period_at_max_power (env.lombScargle (lcRun env tpf))),
            "2 x Period at max power: "
              ++ fmt3 (period_at_max_power (env.lombScargle (lcRun env tpf)) * 2),
            "Period from literature: " ++ ratStr r.Porb ++ " d"]]
      ∧ f.p11.vlines = [period_at_max_power (env.lombScargle (lcRun env tpf)),
                        period_at_max_power (env.lombScargle (lcRun env tpf)) * 2] := by
  simp only [generate_plots, hparse, lookup_of_find? data n r hfind, hdl]
  exact ⟨_, rfl, rfl, rfl⟩

/-- C10: the literature lookup reads the unfiltered table: an identifier
whose every matching row has `Porb` of 10 or more is excluded from the
selectable-identifier list, yet the lookup still resolves it to the first
matching row's period. -/
theorem c10_lookup_full_table (data : List Row) (n : Int) (r : Row)
    (hfind : data.find? (fun row => row.KIC == n) = some r)
    (hall : ∀ r' ∈ data, r'.KIC = n → 10 ≤ r'.Porb) :
    p_orb_lookup data n = Except.ok r.Porb ∧ n ∉ kic_list_ints data := by
  refine ⟨lookup_of_find? data n r hfind, ?_⟩
  intro hmem
  simp only [kic_list_ints, data_short, List.mem_map, List.mem_filter] at hmem
  obtain ⟨r', ⟨hr'mem, hr'lt⟩, hr'k⟩ := hmem
  have h10 := hall r' hr'mem hr'k
  have hlt : r'.Porb < 10 := by simpa using hr'lt
  linarith

/-- C10 witness: in `tableC10` the identifier 77 has literature period 12,
is not in the selectable list, and still resolves to 12. -/
theorem c10_witness :
    tableC10.find? (fun row => row.KIC == (77 : Int)) = some ⟨77, 12⟩
    ∧ (∀ r' ∈ tableC10, r'.KIC = 77 → 10 ≤ r'.Porb)
    ∧ (p_orb_lookup tableC10 77 = Except.ok 12 ∧ (77 : Int) ∉ kic_list_ints tableC10) :=
  ⟨by decide, by decide,
   c10_lookup_full_table tableC10 77 ⟨77, 12⟩ (by decide) (by decide)⟩

/-- C7 witness: a successful run in the found environment carries exactly
the three annotation lines (2.000, 4.000, and the literature period 7/2)
and the two vertical lines at 2 and 4. -/
theorem c7_witness :
    pyInt? "8758161" = some 8758161
    ∧ dupTable.find? (fun row => row.KIC == (8758161 : Int))
        = some ⟨8758161, Rat.mk' 7 2 (by decide) (by decide)⟩
    ∧ envFound.searchDownload ("KIC " ++ "8758161") = some 0
    ∧ ∃ f : Figure, generate_plots envFound dupTable "8758161" 5 1 = Except.ok f
        ∧ f.p11.annotations = [["Period at max power: 2.000",
                                "2 x Period at max power: 4.000",
                                "Period from literature: 7/2 d"]]
        ∧ f.p11.vlines = [2, 4] := by
  refine ⟨by decide, by decide, rfl, ?_⟩
  obtain ⟨f, hf, ha, hv⟩ :=
    c7_annotation_lines envFound dupTable "8758161" 8758161
      ⟨8758161, Rat.mk' 7 2 (by decide) (by decide)⟩ 0 5 1
      (by decide) (by decide) rfl
  have hpm : period_at_max_power (envFound.lombScargle (lcRun envFound 0)) = 2 := by decide
  rw [hpm] at ha hv
  have h4 : (2 : ℚ) * 2 = 4 := by norm_num
  rw [h4] at ha hv
  refine ⟨f, hf, ?_, ?_⟩
  · rw [ha]; decide
  · rw [hv]
